import Mathlib

/- Shallow embedding of src/app.py (Spotify Billboard Bridge): the Billboard
scraper's parse loop, the Spotify service operations (search, playlist
creation, chunked track adding) and the Flask route handlers, with every
remote call abstracted as an explicit oracle argument. -/

/-- ChartEntry produced by BillboardScraper.get_chart: a position, a title
and an artist string. -/
structure Song where
  position : Nat
  title : String
  artist : String
deriving DecidableEq

/-- A parsed HTML element as the scraper sees it: its own text, and the
trimmed-candidate sibling texts scanned for the artist. An element with no
parent is modelled by an empty sibling list. -/
structure Element where
  text : String
  siblings : List String
deriving DecidableEq

/-- Python str.strip(): drop whitespace from both ends. Written over the
character list so that it reduces in the kernel. -/
def pyStrip (s : String) : String :=
  String.mk (((s.data.dropWhile Char.isWhitespace).reverse.dropWhile Char.isWhitespace).reverse)

/-- Artist recovery in BillboardScraper.get_chart: the first sibling whose
stripped text is non-empty, differs from the title and has fewer than 100
characters; the sentinel "Unknown Artist" otherwise. -/
def findArtist (title : String) (siblings : List String) : String :=
  match siblings.find? (fun s => decide (pyStrip s ≠ "" ∧ pyStrip s ≠ title ∧ (pyStrip s).length < 100)) with
  | some s => pyStrip s
  | none => "Unknown Artist"

/-- The scraper's enumeration loop over the matched elements: index i runs
over every element (skipped or not); an element whose stripped text is empty
or has length ≤ 1 yields nothing, otherwise a song at position i + 1. -/
def scanSongs (i : Nat) : List Element → List Song
  | [] => []
  | e :: rest =>
    let title := pyStrip e.text
    if title ≠ "" ∧ 1 < title.length then
      { position := i + 1, title := title, artist := findArtist title e.siblings } :: scanSongs (i + 1) rest
    else
      scanSongs (i + 1) rest

/-- BillboardScraper.get_chart applied to an already-parsed element list:
the loop runs over the first 100 elements and the result is truncated to
100 again on return. -/
def get_chart (elements : List Element) : List Song :=
  (scanSongs 0 (elements.take 100)).take 100

/-- A raw track item as returned by the catalog search API. -/
structure Track where
  uri : String
  name : String
  artists : List String
  popularity : Nat
deriving DecidableEq

/-- The dictionary SpotifyService.search_track builds from the top hit:
uri, name, primary artist and popularity. -/
structure TrackMatch where
  uri : String
  name : String
  artist : String
  popularity : Nat
deriving DecidableEq

/-- Python regex class \w, modelled over ASCII: alphanumeric or underscore. -/
def isWordChar (c : Char) : Bool :=
  c.isAlphanum || c = '_'

/-- re.sub removing every character that is neither a word character nor
whitespace, as applied to both title and artist before searching. -/
def cleanStr (s : String) : String :=
  String.mk (s.data.filter (fun c => isWordChar c || c.isWhitespace))

/-- The four progressively looser search queries, in source order. -/
def buildQueries (title artist : String) : List String :=
  ["track:\"" ++ title ++ "\" artist:\"" ++ artist ++ "\"",
   "\"" ++ title ++ "\" \"" ++ artist ++ "\"",
   title ++ " " ++ artist,
   "track:" ++ title ++ " artist:" ++ artist]

/-- Extraction of the top hit's fields. An item with an empty artists list
makes the source raise (track['artists'][0]), which the surrounding except
clause turns into None. -/
def topHit (t : Track) : Option TrackMatch :=
  match t.artists with
  | [] => none
  | a :: _ => some { uri := t.uri, name := t.name, artist := a, popularity := t.popularity }

/-- The query cascade: issue each query in order; a raising call yields
None for the whole search, a non-empty result returns the top hit, an
empty result moves on to the next query. -/
def runQueries (api : String → Except Unit (List Track)) : List String → Option TrackMatch
  | [] => none
  | q :: rest =>
    match api q with
    | Except.error _ => none
    | Except.ok [] => runQueries api rest
    | Except.ok (t :: _) => topHit t

/-- A created playlist as the handler reads it back: id, name and the
external Spotify url. -/
structure Playlist where
  id : String
  name : String
  url : String
deriving DecidableEq

namespace SpotifyService

/-- SpotifyService.search_track: None when no client (self.sp) has been
initialized by a successful authenticate; otherwise the query cascade over
the cleaned title and artist. The remote search call is the oracle api; a
raising call is Except.error. -/
def search_track (spInit : Bool) (api : String → Except Unit (List Track)) (title artist : String) : Option TrackMatch :=
  if !spInit then none
  else runQueries api (buildQueries (cleanStr title) (cleanStr artist))

/-- SpotifyService.create_playlist: None when no client; otherwise the
current-user lookup plus the playlist-creation call, abstracted together as
an oracle from (name, description, public) to the playlist, or None when
either call raises. -/
def create_playlist (spInit : Bool) (api : String → String → Bool → Option Playlist) (name description : String) (public : Bool) : Option Playlist :=
  if !spInit then none else api name description public

/-- range(0, n, 100): the chunk start offsets of the add loop. -/
def chunkIndices (n : Nat) : List Nat :=
  (List.range ((n + 99) / 100)).map (fun j => j * 100)

/-- The add loop body: one playlist_add_items call per chunk
uris[i:i+100], in offset order; a raising call (Except.error) aborts the
loop. Returns the chunks actually issued together with the boolean
outcome. -/
def add_loop (call : List String → Except Unit Unit) (uris : List String) : List Nat → List (List String) × Bool
  | [] => ([], true)
  | i :: rest =>
    let c := (uris.drop i).take 100
    match call c with
    | Except.error _ => ([c], false)
    | Except.ok _ =>
      let r := add_loop call uris rest
      (c :: r.1, r.2)

/-- The instrumented body of SpotifyService.add_tracks_to_playlist: the
issued chunks and the result. -/
def add_tracks_run (call : List String → Except Unit Unit) (uris : List String) : List (List String) × Bool :=
  add_loop call uris (chunkIndices uris.length)

/-- SpotifyService.add_tracks_to_playlist: False when no client; otherwise
True exactly when the chunk loop runs to completion with no raising call. -/
def add_tracks_to_playlist (spInit : Bool) (call : List String → Except Unit Unit) (uris : List String) : Bool :=
  if !spInit then false else (add_tracks_run call uris).2

end SpotifyService

/-- Python falsiness of an optional string parameter: absent or empty. -/
def strFalsy : Option String → Bool
  | none => true
  | some s => s.isEmpty

/-- An entry of found_tracks in the /api/create_playlist response: the
chart entry together with the Spotify name and artist of the match. -/
structure FoundTrack where
  song : Song
  spotify_name : String
  spotify_artist : String
deriving DecidableEq

/-- The search loop of /api/create_playlist: iterate over the chart
entries, the n-th loop iteration's search outcome given by res n;
partition into found (with the Spotify fields merged in) and missing,
accumulating the uris of the found tracks in order. -/
def searchLoop (res : Nat → Option TrackMatch) : Nat → List Song → List FoundTrack × List Song × List String
  | _, [] => ([], [], [])
  | i, s :: rest =>
    let r := searchLoop res (i + 1) rest
    match res i with
    | some t => ({ song := s, spotify_name := t.name, spotify_artist := t.artist } :: r.1, r.2.1, t.uri :: r.2.2)
    | none => (r.1, s :: r.2.1, r.2.2)

/-- The JSON body of a /api/create_playlist request; public is None when
the key is absent (data.get with a default applies only then). -/
structure CPBody where
  date : Option String
  playlist_name : Option String
  public : Option Bool
deriving DecidableEq

/-- The environment of one /api/create_playlist request: session and
client state, the scraped chart, and the three remote-call oracles. today
stands for datetime.now().strftime of the handler. -/
structure CPEnv where
  hasToken : Bool
  spInit : Bool
  today : String
  chart : List Song
  searchRes : Nat → Option TrackMatch
  createApi : String → String → Bool → Option Playlist
  addCall : List String → Except Unit Unit

/-- The 200 response of /api/create_playlist: status, playlist fields, the
three stats counts and the two breakdown lists. -/
structure CPResponse where
  status : String
  playlist : Playlist
  total_songs : Nat
  found : Nat
  missing : Nat
  found_tracks : List FoundTrack
  missing_tracks : List Song
deriving DecidableEq

/-- The /api/create_playlist handler: 401 without a session credential,
500 on an empty chart, then the search loop, playlist creation (500 on
None) and the add step; success is False when no uris were collected,
otherwise the add result; status is success or partial_success
accordingly. -/
def create_playlist_route (env : CPEnv) (body : CPBody) : Except (Nat × String) CPResponse :=
  if !env.hasToken then Except.error (401, "Not authenticated with Spotify")
  else if env.chart.isEmpty then Except.error (500, "Failed to fetch Billboard chart")
  else
    let chart_date := if strFalsy body.date then env.today else body.date.getD ""
    let playlist_name := if strFalsy body.playlist_name then "Billboard Hot 100 - " ++ chart_date else body.playlist_name.getD ""
    let public := body.public.getD true
    let r := searchLoop env.searchRes 0 env.chart
    let description := "Billboard Hot 100 chart from " ++ (if strFalsy body.date then "current week" else body.date.getD "") ++ ". Created with Spotify Billboard Bridge."
    match SpotifyService.create_playlist env.spInit env.createApi playlist_name description public with
    | none => Except.error (500, "Failed to create Spotify playlist")
    | some pl =>
      let success := if r.2.2.isEmpty then false else SpotifyService.add_tracks_to_playlist env.spInit env.addCall r.2.2
      Except.ok {
        status := if success then "success" else "partial_success",
        playlist := pl,
        total_songs := env.chart.length,
        found := r.1.length,
        missing := r.2.1.length,
        found_tracks := r.1,
        missing_tracks := r.2.1 }

/-- The /api/status handler, instrumented: the first component records
whether the current_user fetch was attempted (the source attempts it only
when the session holds a credential AND the shared client is initialized);
the second component is the (authenticated, user) response body. -/
def status_route (hasToken spInit : Bool) (fetchUser : Except Unit String) : Bool × Bool × Option String :=
  if hasToken && spInit then
    match fetchUser with
    | Except.ok u => (true, true, some u)
    | Except.error _ => (true, false, none)
  else (false, hasToken, none)

/-- The body tags a /api/search_track response can carry. -/
inductive STBody where
  | unauthorized
  | badRequest
  | found (t : TrackMatch)
  | notFound
deriving DecidableEq

/-- The /api/search_track handler: 401 without a session credential, then
400 when title or artist is absent or empty, then the service search. -/
def search_track_route (hasToken spInit : Bool) (title artist : Option String) (api : String → Except Unit (List Track)) : Nat × STBody :=
  if !hasToken then (401, STBody.unauthorized)
  else if strFalsy title || strFalsy artist then (400, STBody.badRequest)
  else
    match SpotifyService.search_track spInit api (title.getD "") (artist.getD "") with
    | some t => (200, STBody.found t)
    | none => (200, STBody.notFound)

/- Lemmas about the scraper loop. -/

theorem scanSongs_pos_lt (l : List Element) : ∀ (i : Nat), ∀ s ∈ scanSongs i l, i < s.position := by
  induction l with
  | nil => intro i s hs; simp [scanSongs] at hs
  | cons e rest ih =>
    intro i s hs
    simp only [scanSongs] at hs
    split at hs
    · rcases List.mem_cons.mp hs with h | h
      · subst h; exact Nat.lt_succ_self i
      · exact Nat.lt_of_succ_lt (ih (i + 1) s h)
    · exact Nat.lt_of_succ_lt (ih (i + 1) s hs)

theorem scanSongs_mem (l : List Element) : ∀ (i : Nat), ∀ s ∈ scanSongs i l,
    ∃ j, ∃ h : j < l.length, s.position = i + j + 1 ∧
      pyStrip (l.get ⟨j, h⟩).text = s.title ∧ 1 < (pyStrip (l.get ⟨j, h⟩).text).length := by
  induction l with
  | nil => intro i s hs; simp [scanSongs] at hs
  | cons e rest ih =>
    intro i s hs
    simp only [scanSongs] at hs
    split at hs
    · rename_i hcond
      rcases List.mem_cons.mp hs with h | h
      · subst h
        exact ⟨0, by simp, by simp, rfl, hcond.2⟩
      · obtain ⟨j, hj, hpos, ht, hlen⟩ := ih (i + 1) s h
        exact ⟨j + 1, by simpa using Nat.succ_lt_succ hj, by omega, ht, hlen⟩
    · obtain ⟨j, hj, hpos, ht, hlen⟩ := ih (i + 1) s hs
      exact ⟨j + 1, by simpa using Nat.succ_lt_succ hj, by omega, ht, hlen⟩

theorem scanSongs_pairwise (l : List Element) : ∀ (i : Nat),
    (scanSongs i l).Pairwise (fun a b => a.position < b.position) := by
  induction l with
  | nil => intro i; simp [scanSongs]
  | cons e rest ih =>
    intro i
    simp only [scanSongs]
    split
    · refine List.Pairwise.cons ?_ (ih (i + 1))
      intro b hb
      have := scanSongs_pos_lt rest (i + 1) b hb
      exact this
    · exact ih (i + 1)

/-- C8: every chart the scraper parses has at most 100 entries, every
entry's position is a positive integer, and the positions are pairwise
distinct within the sequence. -/
theorem c8_chart_shape (es : List Element) :
    (get_chart es).length ≤ 100 ∧
    (∀ s ∈ get_chart es, 0 < s.position) ∧
    ((get_chart es).map Song.position).Nodup := by
  refine ⟨?_, ?_, ?_⟩
  · unfold get_chart
    simp
  · intro s hs
    have hs' : s ∈ scanSongs 0 (es.take 100) := List.mem_of_mem_take hs
    exact scanSongs_pos_lt (es.take 100) 0 s hs'
  · have hp := scanSongs_pairwise (es.take 100) 0
    have hp' : (get_chart es).Pairwise (fun a b => a.position < b.position) :=
      hp.sublist (List.take_sublist 100 (scanSongs 0 (es.take 100)))
    have hm : ((get_chart es).map Song.position).Pairwise (· < ·) :=
      List.pairwise_map.mpr hp'
    exact hm.imp (fun h => Nat.ne_of_lt h)

/-- C8 witness: on a concrete two-element page the theorem yields a
positive position for the first entry. -/
theorem c8_witness : 0 < (⟨1, "Aa", "Unknown Artist"⟩ : Song).position :=
  (c8_chart_shape [⟨"Aa", []⟩, ⟨"Bb", ["X"]⟩]).2.1 ⟨1, "Aa", "Unknown Artist"⟩ (by decide)

/-- C4 as stated is false: a discarded short element does not shift the
following entries; on the page ["x", "Hi"] the sole surviving entry keeps
position 2, so the surviving entries are not numbered consecutively from
1. -/
theorem c4_counterexample :
    ¬ (∀ k, ∀ h : k < (get_chart [⟨"x", []⟩, ⟨"Hi", []⟩]).length,
        ((get_chart [⟨"x", []⟩, ⟨"Hi", []⟩]).get ⟨k, h⟩).position = k + 1) := by
  decide

/-- C4 amended: an element among the first 100 whose trimmed text has
fewer than 2 characters produces no entry, and the discard does not
renumber: every surviving entry keeps position equal to its element's
index + 1 in the matched list (so a discard leaves a gap rather than
shifting the subsequent positions). -/
theorem c4_positions_keep_gaps (es : List Element) :
    (∀ s ∈ get_chart es, ∃ j, ∃ h : j < (es.take 100).length,
        s.position = j + 1 ∧ pyStrip ((es.take 100).get ⟨j, h⟩).text = s.title ∧
        1 < (pyStrip ((es.take 100).get ⟨j, h⟩).text).length) ∧
    (∀ i, ∀ h : i < (es.take 100).length,
        (pyStrip ((es.take 100).get ⟨i, h⟩).text).length < 2 →
        ∀ s ∈ get_chart es, s.position ≠ i + 1) := by
  have key : ∀ s ∈ get_chart es, ∃ j, ∃ h : j < (es.take 100).length,
      s.position = j + 1 ∧ pyStrip ((es.take 100).get ⟨j, h⟩).text = s.title ∧
      1 < (pyStrip ((es.take 100).get ⟨j, h⟩).text).length := by
    intro s hs
    have hs' : s ∈ scanSongs 0 (es.take 100) := List.mem_of_mem_take hs
    obtain ⟨j, hj, hpos, ht, hlen⟩ := scanSongs_mem (es.take 100) 0 s hs'
    exact ⟨j, hj, by omega, ht, hlen⟩
  refine ⟨key, ?_⟩
  intro i hi hshort s hs hpos
  obtain ⟨j, hj, hpos', ht, hlen⟩ := key s hs
  have hij : j = i := by omega
  subst hij
  omega

/-- C4 amended witness: on the concrete page ["x", "Hi"], the discarded
first element's slot is empty, so no entry carries position 1. -/
theorem c4_witness : (⟨2, "Hi", "Unknown Artist"⟩ : Song).position ≠ 0 + 1 :=
  (c4_positions_keep_gaps [⟨"x", []⟩, ⟨"Hi", []⟩]).2 0 (by decide) (by decide)
    ⟨2, "Hi", "Unknown Artist"⟩ (by decide)

/- Lemmas about the search cascade. -/

theorem runQueries_all_empty (api : String → Except Unit (List Track)) :
    ∀ qs : List String, (∀ q ∈ qs, api q = Except.ok []) → runQueries api qs = none := by
  intro qs
  induction qs with
  | nil => intro _; rfl
  | cons q rest ih =>
    intro h
    have hq := h q (by simp)
    simp only [runQueries, hq]
    exact ih (fun p hp => h p (by simp [hp]))

theorem runQueries_append_empty (api : String → Except Unit (List Track))
    (l1 : List String) (q : String) (l2 : List String)
    (h : ∀ p ∈ l1, api p = Except.ok []) :
    runQueries api (l1 ++ q :: l2) =
      (match api q with
       | Except.error _ => none
       | Except.ok [] => runQueries api l2
       | Except.ok (t :: _) => topHit t) := by
  induction l1 with
  | nil => rfl
  | cons p rest ih =>
    have hp := h p (by simp)
    simp only [List.cons_append, runQueries, hp]
    exact ih (fun x hx => h x (by simp [hx]))

/-- C9: before a successful completeAuthentication this session object has
no initialized client, and search_track then returns none for every input
and every oracle outcome; being a total function of its oracles, it raises
nothing. -/
theorem c9_search_before_auth (api : String → Except Unit (List Track)) (title artist : String) :
    SpotifyService.search_track false api title artist = none := rfl

/-- C7: search_track keeps only word characters and whitespace of title
and artist, issues the four queries of buildQueries in their fixed order,
stops at the first query with at least one hit and returns that top hit's
uri, name, primary artist and popularity (topHit); it returns none when
every query comes back empty, or when the first decisive call raises. -/
theorem c7_search_cascade (api : String → Except Unit (List Track)) (title artist : String) :
    (∀ c ∈ (cleanStr title).data, (isWordChar c || c.isWhitespace) = true) ∧
    (∀ c ∈ (cleanStr artist).data, (isWordChar c || c.isWhitespace) = true) ∧
    (buildQueries (cleanStr title) (cleanStr artist)).length = 4 ∧
    SpotifyService.search_track true api title artist =
      runQueries api (buildQueries (cleanStr title) (cleanStr artist)) ∧
    ((∀ q ∈ buildQueries (cleanStr title) (cleanStr artist), api q = Except.ok []) →
      SpotifyService.search_track true api title artist = none) ∧
    (∀ l1 q l2, buildQueries (cleanStr title) (cleanStr artist) = l1 ++ q :: l2 →
      (∀ p ∈ l1, api p = Except.ok []) →
      (∀ e, api q = Except.error e → SpotifyService.search_track true api title artist = none) ∧
      (∀ t ts, api q = Except.ok (t :: ts) →
        SpotifyService.search_track true api title artist = topHit t)) := by
  refine ⟨?_, ?_, rfl, rfl, ?_, ?_⟩
  · intro c hc
    simp only [cleanStr, List.mem_filter] at hc
    exact hc.2
  · intro c hc
    simp only [cleanStr, List.mem_filter] at hc
    exact hc.2
  · intro h
    exact runQueries_all_empty api _ h
  · intro l1 q l2 hsplit hpre
    constructor
    · intro e he
      show runQueries api (buildQueries (cleanStr title) (cleanStr artist)) = none
      rw [hsplit, runQueries_append_empty api l1 q l2 hpre, he]
    · intro t ts ht
      show runQueries api (buildQueries (cleanStr title) (cleanStr artist)) = topHit t
      rw [hsplit, runQueries_append_empty api l1 q l2 hpre, ht]

/-- A concrete search oracle: one hit for the first (quoted exact) query,
empty results everywhere else. -/
def api0 : String → Except Unit (List Track) := fun q =>
  if q = "track:\"Hello\" artist:\"Adele\"" then
    Except.ok [⟨"spotify:track:0", "Hello", ["Adele"], 80⟩]
  else Except.ok []

/-- C7 witness: cleaning "Hello!" and "Adele?" yields "Hello" and "Adele",
the first query hits, and the top hit's fields come back. -/
theorem c7_witness :
    SpotifyService.search_track true api0 "Hello!" "Adele?" =
      topHit ⟨"spotify:track:0", "Hello", ["Adele"], 80⟩ :=
  ((c7_search_cascade api0 "Hello!" "Adele?").2.2.2.2.2
    [] "track:\"Hello\" artist:\"Adele\""
    ["\"Hello\" \"Adele\"", "Hello Adele", "track:Hello artist:Adele"]
    (by rfl) (by simp)).2 ⟨"spotify:track:0", "Hello", ["Adele"], 80⟩ [] (by rfl)

/- Lemmas about the chunked add loop. -/

theorem add_loop_chunk_le (call : List String → Except Unit Unit) (uris : List String) :
    ∀ idxs : List Nat, ∀ c ∈ (SpotifyService.add_loop call uris idxs).1, c.length ≤ 100 := by
  intro idxs
  induction idxs with
  | nil => simp [SpotifyService.add_loop]
  | cons i rest ih =>
    intro c hc
    simp only [SpotifyService.add_loop] at hc
    cases hcall : call ((uris.drop i).take 100) with
    | error e =>
      rw [hcall] at hc
      simp only [List.mem_singleton] at hc
      subst hc
      rw [List.length_take]
      omega
    | ok u =>
      rw [hcall] at hc
      rcases List.mem_cons.mp hc with rfl | hc'
      · rw [List.length_take]; omega
      · exact ih c hc'

theorem add_loop_shift (call : List String → Except Unit Unit) (uris : List String) :
    ∀ idxs : List Nat,
      SpotifyService.add_loop call uris (idxs.map (fun i => i + 100)) =
        SpotifyService.add_loop call (uris.drop 100) idxs := by
  intro idxs
  induction idxs with
  | nil => rfl
  | cons i rest ih =>
    simp only [List.map_cons, SpotifyService.add_loop, List.drop_drop, ih]
    rw [Nat.add_comm i 100]

theorem chunkIndices_succ (n : Nat) (hn : 0 < n) :
    SpotifyService.chunkIndices n =
      0 :: (SpotifyService.chunkIndices (n - 100)).map (fun i => i + 100) := by
  have hk : (n + 99) / 100 = (n - 100 + 99) / 100 + 1 := by omega
  unfold SpotifyService.chunkIndices
  rw [hk, List.range_succ_eq_map]
  simp only [List.map_cons, Nat.zero_mul, List.map_map]
  congr 1
  apply List.map_congr_left
  intro j hj
  simp [Nat.succ_mul]

theorem add_tracks_run_nil (call : List String → Except Unit Unit) :
    SpotifyService.add_tracks_run call [] = ([], true) := rfl

theorem add_tracks_run_cons (call : List String → Except Unit Unit) (uris : List String)
    (h : uris ≠ []) :
    SpotifyService.add_tracks_run call uris =
      (match call (uris.take 100) with
       | Except.error _ => ([uris.take 100], false)
       | Except.ok _ =>
         ((uris.take 100) :: (SpotifyService.add_tracks_run call (uris.drop 100)).1,
          (SpotifyService.add_tracks_run call (uris.drop 100)).2)) := by
  have hn : 0 < uris.length := List.length_pos.mpr h
  have hshift :
      SpotifyService.add_loop call uris
        ((SpotifyService.chunkIndices (uris.length - 100)).map (fun i => i + 100)) =
        SpotifyService.add_tracks_run call (uris.drop 100) := by
    rw [add_loop_shift]
    unfold SpotifyService.add_tracks_run
    rw [List.length_drop]
  unfold SpotifyService.add_tracks_run
  rw [chunkIndices_succ uris.length hn]
  simp only [SpotifyService.add_loop, List.drop_zero, hshift]
  rfl

theorem add_run_front (call : List String → Except Unit Unit) (uris : List String) :
    ∃ rest, ((SpotifyService.add_tracks_run call uris).1).flatten ++ rest = uris := by
  by_cases hnil : uris = []
  · subst hnil; exact ⟨[], rfl⟩
  · rw [add_tracks_run_cons call uris hnil]
    cases hcall : call (uris.take 100) with
    | error e =>
      exact ⟨uris.drop 100, by simp⟩
    | ok u =>
      obtain ⟨rest, hrest⟩ := add_run_front call (uris.drop 100)
      refine ⟨rest, ?_⟩
      show ((uris.take 100 :: (SpotifyService.add_tracks_run call (uris.drop 100)).1).flatten) ++ rest = uris
      rw [List.flatten_cons, List.append_assoc, hrest, List.take_append_drop]
termination_by uris.length
decreasing_by
  have := List.length_pos.mpr hnil
  simp [List.length_drop]
  omega

theorem add_run_complete (call : List String → Except Unit Unit) (uris : List String)
    (h : (SpotifyService.add_tracks_run call uris).2 = true) :
    (SpotifyService.add_tracks_run call uris).1.length = (uris.length + 99) / 100 ∧
    ((SpotifyService.add_tracks_run call uris).1).flatten = uris := by
  by_cases hnil : uris = []
  · subst hnil; exact ⟨rfl, rfl⟩
  · rw [add_tracks_run_cons call uris hnil] at h ⊢
    cases hcall : call (uris.take 100) with
    | error e =>
      rw [hcall] at h
      simp at h
    | ok u =>
      rw [hcall] at h
      have hp : 0 < uris.length := List.length_pos.mpr hnil
      obtain ⟨hlen, hjoin⟩ := add_run_complete call (uris.drop 100) h
      constructor
      · show (uris.take 100 :: (SpotifyService.add_tracks_run call (uris.drop 100)).1).length =
          (uris.length + 99) / 100
        simp only [List.length_cons, hlen, List.length_drop]
        omega
      · show (uris.take 100 :: (SpotifyService.add_tracks_run call (uris.drop 100)).1).flatten = uris
        rw [List.flatten_cons, hjoin, List.take_append_drop]
termination_by uris.length
decreasing_by
  have := List.length_pos.mpr hnil
  simp [List.length_drop]
  omega

theorem add_run_ok_iff (call : List String → Except Unit Unit) (uris : List String) :
    (SpotifyService.add_tracks_run call uris).2 = true ↔
      ∀ c ∈ (SpotifyService.add_tracks_run call uris).1, call c = Except.ok () := by
  by_cases hnil : uris = []
  · subst hnil
    simp [add_tracks_run_nil]
  · rw [add_tracks_run_cons call uris hnil]
    cases hcall : call (uris.take 100) with
    | error e =>
      simp only
      constructor
      · intro h; cases h
      · intro h
        have hx := h (uris.take 100) (by simp)
        rw [hcall] at hx
        cases hx
    | ok u =>
      simp only
      have ih := add_run_ok_iff call (uris.drop 100)
      constructor
      · intro h c hc
        rcases List.mem_cons.mp hc with rfl | hc'
        · exact hcall
        · exact ih.mp h c hc'
      · intro h
        exact ih.mpr (fun c hc => h c (List.mem_cons_of_mem _ hc))
termination_by uris.length
decreasing_by
  have := List.length_pos.mpr hnil
  simp [List.length_drop]
  omega

/-- C6 as stated is false: when a chunk call raises, the loop stops, so
fewer than ceil(N/100) calls are issued. With 101 identifiers and a call
that always raises, exactly one add call is issued while ceil(101/100) is
2. -/
theorem c6_counterexample :
    (SpotifyService.add_tracks_run (fun _ => Except.error ()) (List.replicate 101 "u")).1.length = 1 ∧
    ((List.replicate 101 "u" : List String).length + 99) / 100 = 2 ∧
    ¬ ((SpotifyService.add_tracks_run (fun _ => Except.error ()) (List.replicate 101 "u")).1.length =
        ((List.replicate 101 "u" : List String).length + 99) / 100) := by
  decide

/-- C6 amended: add_tracks_to_playlist issues one add call per chunk of at
most 100 identifiers, in order, stopping right after the first raising
call, so the issued chunks always concatenate to a prefix of the input;
when the result is true, exactly ceil(N/100) calls were issued and their
concatenation is exactly the input in order; and the result is true
exactly when every issued call succeeded (hence false whenever an issued
call raises). -/
theorem c6_add_tracks_chunking (call : List String → Except Unit Unit) (uris : List String) :
    (∀ c ∈ (SpotifyService.add_tracks_run call uris).1, c.length ≤ 100) ∧
    (∃ rest, ((SpotifyService.add_tracks_run call uris).1).flatten ++ rest = uris) ∧
    ((SpotifyService.add_tracks_run call uris).2 = true →
      (SpotifyService.add_tracks_run call uris).1.length = (uris.length + 99) / 100 ∧
      ((SpotifyService.add_tracks_run call uris).1).flatten = uris) ∧
    ((SpotifyService.add_tracks_run call uris).2 = true ↔
      ∀ c ∈ (SpotifyService.add_tracks_run call uris).1, call c = Except.ok ()) ∧
    SpotifyService.add_tracks_to_playlist true call uris = (SpotifyService.add_tracks_run call uris).2 :=
  ⟨add_loop_chunk_le call uris _, add_run_front call uris,
   add_run_complete call uris, add_run_ok_iff call uris, rfl⟩

/-- C6 amended witness: three identifiers with an always-succeeding call
make exactly ceil(3/100) = 1 issued call. -/
theorem c6_witness :
    (SpotifyService.add_tracks_run (fun _ => Except.ok ()) ["a", "b", "c"]).1.length =
      ((["a", "b", "c"] : List String).length + 99) / 100 :=
  ((c6_add_tracks_chunking (fun _ => Except.ok ()) ["a", "b", "c"]).2.2.1 (by rfl)).1

/- Lemmas about the create_playlist search loop. -/

theorem searchLoop_length (res : Nat → Option TrackMatch) :
    ∀ (songs : List Song) (i : Nat),
      (searchLoop res i songs).1.length + (searchLoop res i songs).2.1.length = songs.length := by
  intro songs
  induction songs with
  | nil => intro i; rfl
  | cons s rest ih =>
    intro i
    simp only [searchLoop]
    cases res i with
    | some t =>
      simp only [List.length_cons]
      have := ih (i + 1)
      omega
    | none =>
      simp only [List.length_cons]
      have := ih (i + 1)
      omega

theorem searchLoop_perm (res : Nat → Option TrackMatch) :
    ∀ (songs : List Song) (i : Nat),
      List.Perm ((searchLoop res i songs).1.map FoundTrack.song ++ (searchLoop res i songs).2.1) songs := by
  intro songs
  induction songs with
  | nil => intro i; simp [searchLoop]
  | cons s rest ih =>
    intro i
    simp only [searchLoop]
    cases res i with
    | some t =>
      simp only [List.map_cons, List.cons_append]
      exact List.Perm.cons s (ih (i + 1))
    | none =>
      exact List.Perm.trans List.perm_middle (List.Perm.cons s (ih (i + 1)))

/-- C1: every 200 response of /api/create_playlist reports found and
missing as the lengths of found_tracks and missing_tracks, total_songs as
the chart length, found + missing = total_songs, and the two lists
together are a permutation of the chart entries (each entry landing in
exactly one of them). -/
theorem c1_found_missing_partition (env : CPEnv) (body : CPBody) (r : CPResponse)
    (h : create_playlist_route env body = Except.ok r) :
    r.found = r.found_tracks.length ∧
    r.missing = r.missing_tracks.length ∧
    r.total_songs = env.chart.length ∧
    r.found + r.missing = r.total_songs ∧
    List.Perm (r.found_tracks.map FoundTrack.song ++ r.missing_tracks) env.chart := by
  simp only [create_playlist_route] at h
  split at h
  · cases h
  · split at h
    · cases h
    · split at h
      · cases h
      · injection h with h
        subst h
        refine ⟨rfl, rfl, rfl, ?_, ?_⟩
        · exact searchLoop_length env.searchRes env.chart 0
        · exact searchLoop_perm env.searchRes env.chart 0

/-- A concrete request environment whose one-song chart finds no Spotify
match: search always misses, playlist creation and add calls succeed. -/
def envMissAll : CPEnv :=
  { hasToken := true, spInit := true, today := "2024-01-06",
    chart := [⟨1, "Song A", "Artist B"⟩],
    searchRes := fun _ => none,
    createApi := fun _ _ _ => some ⟨"pid", "pl", "url"⟩,
    addCall := fun _ => Except.ok () }

/-- The same environment except that every search hits. -/
def envHitAll : CPEnv :=
  { hasToken := true, spInit := true, today := "2024-01-06",
    chart := [⟨1, "Song A", "Artist B"⟩],
    searchRes := fun _ => some ⟨"spotify:track:1", "Song A", "Artist B", 42⟩,
    createApi := fun _ _ _ => some ⟨"pid", "pl", "url"⟩,
    addCall := fun _ => Except.ok () }

/-- A request body with no fields supplied. -/
def bodyEmpty : CPBody := ⟨none, none, none⟩

/-- The response the handler produces in envMissAll. -/
def respMiss : CPResponse :=
  ⟨"partial_success", ⟨"pid", "pl", "url"⟩, 1, 0, 1, [], [⟨1, "Song A", "Artist B"⟩]⟩

/-- The response the handler produces in envHitAll. -/
def respHit : CPResponse :=
  ⟨"success", ⟨"pid", "pl", "url"⟩, 1, 1, 0,
   [⟨⟨1, "Song A", "Artist B"⟩, "Song A", "Artist B"⟩], []⟩

/-- C1 witness: in the concrete all-miss environment the counts add up. -/
theorem c1_witness : respMiss.found + respMiss.missing = respMiss.total_songs :=
  (c1_found_missing_partition envMissAll bodyEmpty respMiss rfl).2.2.2.1

/-- C3 as stated is false: with a one-song chart whose search misses, the
found-uri list is empty and the add step over it trivially succeeds
(add_tracks_to_playlist returns true on an empty list), yet the handler
reports partial_success, because success is hard-coded to False when no
uris were collected. -/
theorem c3_counterexample :
    create_playlist_route envMissAll bodyEmpty = Except.ok respMiss ∧
    respMiss.status = "partial_success" ∧
    (searchLoop envMissAll.searchRes 0 envMissAll.chart).2.2 = [] ∧
    SpotifyService.add_tracks_to_playlist true envMissAll.addCall
      ((searchLoop envMissAll.searchRes 0 envMissAll.chart).2.2) = true ∧
    "partial_success" ≠ "success" :=
  ⟨rfl, rfl, rfl, rfl, by decide⟩

/-- C3 amended: in every 200 response, status is success exactly when at
least one found track uri was collected and the add step over those uris
returned true; in particular, when no track was found the status is
partial_success even though no add call failed; status is always one of
the two strings. -/
theorem c3_status_amended (env : CPEnv) (body : CPBody) (r : CPResponse)
    (h : create_playlist_route env body = Except.ok r) :
    (r.status = "success" ↔
      ((searchLoop env.searchRes 0 env.chart).2.2 ≠ [] ∧
        SpotifyService.add_tracks_to_playlist env.spInit env.addCall
          ((searchLoop env.searchRes 0 env.chart).2.2) = true)) ∧
    (r.status = "success" ∨ r.status = "partial_success") := by
  simp only [create_playlist_route] at h
  split at h
  · cases h
  · split at h
    · cases h
    · split at h
      · cases h
      · injection h with h
        subst h
        constructor
        · rcases hl : (searchLoop env.searchRes 0 env.chart).2.2 with _ | ⟨u, us⟩
          · simp [hl]
          · cases hadd : SpotifyService.add_tracks_to_playlist env.spInit env.addCall (u :: us) with
            | true => simp [hl, hadd]
            | false => simp [hl, hadd]
        · dsimp only
          split
          · exact Or.inr (by simp)
          · split
            · exact Or.inl rfl
            · exact Or.inr rfl

/-- C3 amended witness: in the concrete all-hit environment the status is
success. -/
theorem c3_witness : respHit.status = "success" :=
  (c3_status_amended envHitAll bodyEmpty respHit rfl).1.mpr ⟨by decide, by rfl⟩

/-- C10: a create_playlist body omitting the public flag behaves exactly
as one setting it to true: the handler defaults the flag to true before
the createPlaylist call. -/
theorem c10_public_default (env : CPEnv) (date playlist_name : Option String) :
    create_playlist_route env ⟨date, playlist_name, none⟩ =
      create_playlist_route env ⟨date, playlist_name, some true⟩ := rfl

/-- C5 as stated is false: with a credential in the session but no
initialized client, the handler does not attempt the profile fetch (and
reports authenticated true with user null). -/
theorem c5_counterexample :
    (status_route true false (Except.ok "user")).1 ≠ true := by decide

/-- C5 amended: the profile fetch is attempted exactly when a credential
is present and the shared client is initialized; an exception during an
attempted fetch yields authenticated false; with no credential the
response is (false, none); with a credential but no client the response
is (true, none) with no fetch attempted; a successful fetch yields
(true, some user). -/
theorem c5_status_amended (hasToken spInit : Bool) (fetchUser : Except Unit String) :
    (status_route hasToken spInit fetchUser).1 = (hasToken && spInit) ∧
    (status_route false spInit fetchUser).2 = (false, none) ∧
    (status_route true false fetchUser).2 = (true, none) ∧
    (status_route true true (Except.error ())).2 = (false, none) ∧
    (∀ u, (status_route true true (Except.ok u)).2 = (true, some u)) := by
  refine ⟨?_, ?_, ?_, rfl, fun u => rfl⟩
  · cases hasToken <;> cases spInit <;> cases fetchUser <;> rfl
  · cases spInit <;> cases fetchUser <;> rfl
  · cases fetchUser <;> rfl

/-- C2 as stated is false: without a session credential, a request missing
the artist parameter gets 401, not 400. -/
theorem c2_counterexample :
    (search_track_route false true (some "Hello") none (fun _ => Except.ok [])).1 ≠ 400 := by
  decide

/-- C2 amended: with a session credential, a request whose title or artist
parameter is absent or empty gets 400; without a credential the handler
returns 401 regardless of the parameters and of the client state. -/
theorem c2_params_amended (spInit : Bool) (title artist : Option String)
    (api : String → Except Unit (List Track)) :
    (search_track_route false spInit title artist api).1 = 401 ∧
    ((strFalsy title || strFalsy artist) = true →
      (search_track_route true spInit title artist api).1 = 400) := by
  constructor
  · rfl
  · intro h
    simp [search_track_route, h]

/-- C2 amended witness: authenticated, title present, artist absent gives
400. -/
theorem c2_witness :
    (search_track_route true true (some "Hello") none (fun _ => Except.ok [])).1 = 400 :=
  (c2_params_amended true (some "Hello") none (fun _ => Except.ok [])).2 (by decide)
